import Mathlib

/-!
Shallow embedding of the `lofi-creation` node pack
(`lofi_creation.py`, `ximi_string_pass.py`, `ximi_string_input.py`).

Python's side effects (filesystem, subprocesses, network) are made explicit:
the filesystem is a map from canonical paths to byte lists together with a
fixed path-canonicalisation function; each external-tool or network call is
an outcome value drawn from an environment record, and every operation also
returns the list of effects it performed, in order.  Machine floats that the
code manipulates are modelled as `PyFloat` (a rational, or one of the
non-finite values Python's `float(...)` can parse); durations are rationals.
-/

/-- A filesystem path, kept as the raw string the code manipulates. -/
abbrev FsPath := String

/-- Byte string: contents of a file or of a network chunk. -/
abbrev Bytes := List Nat

/-- A Python `float` value as produced by `float(stdout)`: a finite rational,
or one of the non-finite values (`inf`, `-inf`, `nan`) that Python parses. -/
inductive PyFloat where
  | finite (q : ℚ)
  | pinf
  | ninf
  | nan
deriving DecidableEq

/-- Python's `x <= 0` on a float: `nan <= 0` and `inf <= 0` are `False`,
`-inf <= 0` is `True`. -/
def pyLeZero : PyFloat → Bool
  | .finite q => q ≤ 0
  | .pinf => false
  | .ninf => true
  | .nan => false

/-- Whether a parsed value is a finite positive number. -/
def isFinitePositive : PyFloat → Bool
  | .finite q => 0 < q
  | _ => false

/-- Outcome of one `ffprobe` invocation as seen by `_probe_duration_seconds`:
the process exit code and the result of `float(proc.stdout.strip())`
(`none` when that conversion raised). -/
structure ProbeOutcome where
  exitCode : Int
  parsed : Option PyFloat
deriving DecidableEq

/-- `_probe_duration_seconds`: with `check=True` a non-zero exit raises
`CalledProcessError`; an unparsable stdout raises `ValueError`; a parsed
`dur` with `dur <= 0` raises `ValueError`; all are caught by the
`except Exception` and give the `0.0` sentinel; otherwise `dur` is returned. -/
def probe_duration_seconds (o : ProbeOutcome) : PyFloat :=
  if o.exitCode ≠ 0 then .finite 0
  else
    match o.parsed with
    | none => .finite 0
    | some dur => if pyLeZero dur then .finite 0 else dur

/-- Repeat count of `_ffmpeg_concat_then_merge` for a finite probed video
duration: `repeats = 1`, overwritten with `max(1, ceil(duration / vdur))`
when `vdur > 0 and duration > 0`. -/
def repeatsOf (duration vdur : ℚ) : Int :=
  if 0 < vdur ∧ 0 < duration then max 1 ⌈duration / vdur⌉ else 1

/-- Repeat count with the probed duration as a Python float.  `vdur > 0` is
`True` for `inf` (and `duration / inf == 0.0`), `False` for `nan` and
`-inf`. -/
def repeatsOfPy (duration : ℚ) (vdur : PyFloat) : Int :=
  match vdur with
  | .finite v => repeatsOf duration v
  | .pinf => if 0 < duration then max 1 ⌈(0 : ℚ)⌉ else 1
  | .ninf => 1
  | .nan => 1

/-- The concat list built by `_ffmpeg_concat_then_merge`: `repeats` lines,
each naming the same source video file. -/
def concatListOf (video : FsPath) (duration vdur : ℚ) : List FsPath :=
  List.replicate (repeatsOf duration vdur).toNat video

/-- The character class `[A-Za-z0-9._-]` of the sanitiser's regex. -/
def allowedChar (c : Char) : Bool :=
  ('A' ≤ c && c ≤ 'Z') || ('a' ≤ c && c ≤ 'z') || ('0' ≤ c && c ≤ '9') ||
    c = '.' || c = '_' || c = '-'

/-- `re.sub(r"[^A-Za-z0-9._-]+", "_", name)`: each maximal run of characters
outside the class is replaced by a single underscore.  The flag records
whether we are inside such a run (its underscore already emitted). -/
def collapseAux : Bool → List Char → List Char
  | _, [] => []
  | inRun, c :: rest =>
    if allowedChar c then c :: collapseAux false rest
    else if inRun then collapseAux true rest
    else '_' :: collapseAux true rest

/-- One of the characters stripped by `.strip("._-")`. -/
def isSepChar (c : Char) : Bool := c = '.' || c = '_' || c = '-'

/-- Python's `s.strip(chars)`: remove the characters from both ends. -/
def stripChars (l : List Char) : List Char :=
  ((l.dropWhile isSepChar).reverse.dropWhile isSepChar).reverse

/-- Decimal digits of `n`, most significant first, mirroring `str(int(x))`.
The fuel argument (always sufficient at `n + 1`) keeps the recursion
structural. -/
def natDigitsAux : Nat → Nat → List Char
  | 0, _ => []
  | fuel + 1, n =>
    if n < 10 then [Char.ofNat (48 + n)]
    else natDigitsAux fuel (n / 10) ++ [Char.ofNat (48 + n % 10)]

/-- `str(n)` for a natural number. -/
def natToDecString (n : Nat) : String := String.mk (natDigitsAux (n + 1) n)

/-- `_safe_filename`: collapse disallowed runs to `_`, strip `._-` from both
ends, and fall back to `str(int(time.time()))` when the result is empty.
`now` stands for the current Unix time. -/
def safe_filename (name : String) (now : Nat) : String :=
  match stripChars (collapseAux false name.data) with
  | [] => natToDecString now
  | l => String.mk l

/-- Final path component, after discarding trailing slashes, as
`pathlib.PurePath.name` does. -/
def lastComponent (s : String) : List Char :=
  ((s.data.reverse.dropWhile (fun c => c = '/')).takeWhile (fun c => c ≠ '/')).reverse

/-- `pathlib.PurePath.suffix`: the part of the final component from its last
dot, empty unless that dot is at an index `i` with `0 < i < len(name) - 1`. -/
def pathSuffix (s : String) : String :=
  let name := lastComponent s
  let tail := name.reverse.takeWhile (fun c => c ≠ '.')
  if tail.length = name.length then ""
  else if 1 ≤ name.length - 1 - tail.length ∧ 1 ≤ tail.length then
    String.mk ('.' :: tail.reverse)
  else ""

/-- ASCII `str.lower()`. -/
def lowerStr (s : String) : String := String.mk (s.data.map Char.toLower)

/-- `out_dir / name`. -/
def pathJoin (d : FsPath) (n : String) : FsPath := d ++ "/" ++ n

/-- The `direct_exts` set of `_download_media`. -/
def direct_exts : List String :=
  [".mp4", ".mov", ".mkv", ".avi", ".webm", ".mp3", ".wav", ".m4a", ".aac",
    ".flac", ".ogg", ".opus"]

/-- `_guess_ext_from_url` applied to the reference: lower-cased suffix of the
URL's path component (the default is the empty string). -/
def guessExtOfPath (urlPath : String) : String := lowerStr (pathSuffix urlPath)

/-- ASCII whitespace stripped by Python's `str.strip()`. -/
def isPySpace (c : Char) : Bool :=
  c = ' ' || c = '\t' || c = '\n' || c = '\r' || c = '\x0b' || c = '\x0c'

/-- Python's `s.strip()`. -/
def pyStrip (s : String) : String :=
  String.mk (((s.data.dropWhile isPySpace).reverse.dropWhile isPySpace).reverse)

/-- Python's `s or fallback` for strings: the fallback when `s` is empty. -/
def nonEmptyOr (s fallback : String) : String := if s = "" then fallback else s

/-- A media reference as seen after `urlparse`: the raw string plus the
scheme and path components the standard-library parser extracted from it. -/
structure ParsedRef where
  raw : String
  scheme : String
  path : String

/-- The filesystem: a canonicalisation function (`Path.resolve`, symlinks
and absolute form) and the byte contents of each file, keyed by canonical
path. -/
structure FS where
  resolve : FsPath → FsPath
  files : FsPath → Option Bytes

/-- Observable side effects, recorded in order. -/
inductive Effect where
  | checkDep (tool : String)
  | mkdir (p : FsPath)
  | fsRead (p : FsPath)
  | fsWrite (p : FsPath)
  | netFetch (url : String)
  | toolRun (tool : String)
deriving DecidableEq

/-- Python exception classes the module raises, with their messages. -/
inductive PyError where
  | valueError (msg : String)
  | fileNotFoundError (msg : String)
  | runtimeError (msg : String)
  | httpError (status : Nat)
deriving DecidableEq

/-- One `requests.get` response: HTTP status and the streamed chunks. -/
structure HttpResponse where
  status : Nat
  chunks : List Bytes

/-- Network-side environment: availability of the two optional packages, the
HTTP response for each URL, and the file the media-extraction fetcher would
produce for each URL (`none` when it fails). -/
structure NetEnv where
  requestsAvailable : Bool
  ytdlpAvailable : Bool
  response : String → HttpResponse
  ytdlpFile : String → Option FsPath

/-- Bytes written by `_download_direct`: the chunks, skipping falsy (empty)
ones, concatenated. -/
def writtenBytes (r : HttpResponse) : Bytes :=
  (r.chunks.filter (fun c => !c.isEmpty)).flatten

/-- Result of an operation: the returned value or the raised exception, the
filesystem afterwards, and the effects performed. -/
structure RunResult where
  result : Except PyError FsPath
  fs : FS
  trace : List Effect

/-- `local_path` of `_download_media`'s local branch: the parsed path for a
`file` scheme, the raw reference otherwise. -/
def localPathOf (ref : ParsedRef) : FsPath :=
  if ref.scheme = "file" then ref.path else ref.raw

/-- Destination of the local branch: sanitized label plus the source's
suffix, inside the destination directory. -/
def destLocalOf (ref : ParsedRef) (outDir : FsPath) (label : String) (now : Nat) : FsPath :=
  pathJoin outDir (safe_filename label now ++ pathSuffix (localPathOf ref))

/-- Destination of the direct-URL branch: sanitized label plus the
lower-cased extension taken from the URL path. -/
def destDirectOf (ref : ParsedRef) (outDir : FsPath) (label : String) (now : Nat) : FsPath :=
  pathJoin outDir (safe_filename label now ++ guessExtOfPath ref.path)

def requestsMissingMsg : String :=
  "The \x27requests\x27 package is required to download direct URLs. Please install it."

def ytdlpMissingMsg : String :=
  "The \x27yt-dlp\x27 package is required for non-direct media URLs (e.g., YouTube). Please install it."

def ytdlpFailedMsg : String := "Failed to download media via yt-dlp."

/-- `_download_media`: empty-reference check, then dispatch on the scheme:
local copy-or-use-in-place, direct streaming download, media-extraction
fetcher, or `ValueError` for any other scheme. -/
def downloadMedia (fs : FS) (ref : ParsedRef) (outDir : FsPath) (label mediaType : String)
    (net : NetEnv) (now : Nat) : RunResult :=
  if ref.raw = "" then
    ⟨.error (.valueError (mediaType ++ " url is empty")), fs, []⟩
  else if ref.scheme = "" ∨ ref.scheme = "file" then
    match fs.files (fs.resolve (localPathOf ref)) with
    | none =>
      ⟨.error (.fileNotFoundError ("Local path not found: " ++ localPathOf ref)), fs,
        [.fsRead (localPathOf ref)]⟩
    | some bs =>
      if fs.resolve (localPathOf ref) = fs.resolve (destLocalOf ref outDir label now) then
        ⟨.ok (destLocalOf ref outDir label now), fs, [.fsRead (localPathOf ref)]⟩
      else
        ⟨.ok (destLocalOf ref outDir label now),
          ⟨fs.resolve,
            fun p => if p = fs.resolve (destLocalOf ref outDir label now) then some bs
              else fs.files p⟩,
          [.fsRead (localPathOf ref), .fsWrite (destLocalOf ref outDir label now)]⟩
  else if ref.scheme = "http" ∨ ref.scheme = "https" then
    if guessExtOfPath ref.path ∈ direct_exts then
      if net.requestsAvailable then
        if 400 ≤ (net.response ref.raw).status ∧ (net.response ref.raw).status < 600 then
          ⟨.error (.httpError (net.response ref.raw).status), fs, [.netFetch ref.raw]⟩
        else
          ⟨.ok (destDirectOf ref outDir label now),
            ⟨fs.resolve,
              fun p => if p = fs.resolve (destDirectOf ref outDir label now) then
                  some (writtenBytes (net.response ref.raw))
                else fs.files p⟩,
            [.netFetch ref.raw, .fsWrite (destDirectOf ref outDir label now)]⟩
      else ⟨.error (.runtimeError requestsMissingMsg), fs, []⟩
    else
      if net.ytdlpAvailable then
        match net.ytdlpFile ref.raw with
        | some p => ⟨.ok p, fs, [.netFetch ref.raw]⟩
        | none => ⟨.error (.runtimeError ytdlpFailedMsg), fs, [.netFetch ref.raw]⟩
      else ⟨.error (.runtimeError ytdlpMissingMsg), fs, []⟩
  else
    ⟨.error (.valueError ("Unsupported URL scheme: " ++ ref.scheme)), fs, []⟩

/-- Outcome of one ffmpeg invocation: exit code and captured stderr. -/
structure ToolOutcome where
  exitCode : Int
  stderr : String

/-- Ambient state of one `create_lofi` invocation: resolved output root and
session key, current Unix time, `shutil.which` results for the two tools,
the network environment, and the outcomes of the external-tool runs. -/
structure Env where
  outputDir : FsPath
  sessionKey : String
  now : Nat
  ffmpegPath : Option String
  ffprobePath : Option String
  net : NetEnv
  mergeLoopOutcome : ToolOutcome
  concatOutcome : ToolOutcome
  probeOutcome : ProbeOutcome

def ffmpegMissingMsg : String :=
  "ffmpeg not found on PATH. Please install ffmpeg and ensure \x27ffmpeg\x27 and \x27ffprobe\x27 are available."

def ffprobeMissingMsg : String :=
  "ffprobe not found on PATH. Please install ffmpeg (which includes ffprobe)."

def invalidDurationMsg : String := "duration_seconds must be > 0"

def concatFallbackFailedMsg : String := "ffmpeg failed during concat/merge fallback"

/-- `OUTPUT_DIR / time.strftime("%Y%m%d_%H%M%S")`. -/
def sessionDirOf (env : Env) : FsPath := pathJoin env.outputDir env.sessionKey

/-- `session_dir / f"lofi_{int(time.time())}.mp4"`. -/
def outPathOf (env : Env) : FsPath :=
  pathJoin (sessionDirOf env) ("lofi_" ++ natToDecString env.now ++ ".mp4")

/-- The try/except of `create_lofi` around the two render strategies:
`_ffmpeg_merge_loop` (any exception falls through), then
`_ffmpeg_concat_then_merge`, which probes the video duration, builds the
concat list, and raises `RuntimeError(proc.stderr.strip() or default)` on a
non-zero exit.  The tools' own writes to `outPath` are outside the byte-level
model; success returns the output path. -/
def renderPhase (env : Env) (fs : FS) (videoLocal _audioLocal : FsPath) (duration : ℚ)
    (outPath : FsPath) : RunResult :=
  if env.mergeLoopOutcome.exitCode = 0 then
    ⟨.ok outPath, fs, [.toolRun "ffmpeg"]⟩
  else
    let vdur := probe_duration_seconds env.probeOutcome
    let _concatLines := List.replicate (repeatsOfPy duration vdur).toNat videoLocal
    if env.concatOutcome.exitCode = 0 then
      ⟨.ok outPath, fs, [.toolRun "ffmpeg", .toolRun "ffprobe", .toolRun "ffmpeg"]⟩
    else
      ⟨.error (.runtimeError (nonEmptyOr (pyStrip env.concatOutcome.stderr) concatFallbackFailedMsg)),
        fs, [.toolRun "ffmpeg", .toolRun "ffprobe", .toolRun "ffmpeg"]⟩

/-- Resolution of the video reference into the session directory. -/
def videoDl (env : Env) (fs : FS) (vref : ParsedRef) : RunResult :=
  downloadMedia fs vref (sessionDirOf env) "video" "video" env.net env.now

/-- Resolution of the audio reference, on the filesystem left by the video
resolution. -/
def audioDl (env : Env) (fs : FS) (vref aref : ParsedRef) : RunResult :=
  downloadMedia (videoDl env fs vref).fs aref (sessionDirOf env) "audio" "audio" env.net env.now

/-- Effects preceding resolution: the two `shutil.which` lookups and the
session-directory creation. -/
def preTrace (env : Env) : List Effect :=
  [.checkDep "ffmpeg", .checkDep "ffprobe", .mkdir (sessionDirOf env)]

/-- `XimiLofiCreation.create_lofi`: duration validation, `_require_ffmpeg`,
session directory creation, resolution of the two references, then the
render phase. -/
def createLofi (env : Env) (fs : FS) (vref aref : ParsedRef) (duration : ℚ) : RunResult :=
  if duration ≤ 0 then
    ⟨.error (.valueError invalidDurationMsg), fs, []⟩
  else if env.ffmpegPath = none then
    ⟨.error (.runtimeError ffmpegMissingMsg), fs, [.checkDep "ffmpeg"]⟩
  else if env.ffprobePath = none then
    ⟨.error (.runtimeError ffprobeMissingMsg), fs, [.checkDep "ffmpeg", .checkDep "ffprobe"]⟩
  else
    match (videoDl env fs vref).result with
    | .error e => ⟨.error e, (videoDl env fs vref).fs, preTrace env ++ (videoDl env fs vref).trace⟩
    | .ok videoLocal =>
      match (audioDl env fs vref aref).result with
      | .error e =>
        ⟨.error e, (audioDl env fs vref aref).fs,
          preTrace env ++ (videoDl env fs vref).trace ++ (audioDl env fs vref aref).trace⟩
      | .ok audioLocal =>
        ⟨(renderPhase env (audioDl env fs vref aref).fs videoLocal audioLocal duration
            (outPathOf env)).result,
          (renderPhase env (audioDl env fs vref aref).fs videoLocal audioLocal duration
            (outPathOf env)).fs,
          preTrace env ++ (videoDl env fs vref).trace ++ (audioDl env fs vref aref).trace ++
            (renderPhase env (audioDl env fs vref aref).fs videoLocal audioLocal duration
              (outPathOf env)).trace⟩

/-- `XimiStringPass.pass_through`: returns the 1-tuple `(string,)`,
modelled as a one-element list. -/
def XimiStringPass.pass_through (string : String) : List String := [string]

/-- `XimiStringInput.produce`: returns the 1-tuple `(value,)`. -/
def XimiStringInput.produce (value : String) : List String := [value]

/-- Effects that touch the disk or the network (a `shutil.which` lookup does
not). -/
def isWorkEffect : Effect → Bool
  | .checkDep _ => false
  | _ => true

/-- Discriminator: is the raised exception a `RuntimeError` (the class used
for the dependency-missing and render failures)? -/
def isRuntimeErr : Except PyError FsPath → Bool
  | .error (.runtimeError _) => true
  | _ => false

theorem stringMk_ne_empty (l : List Char) (h : l ≠ []) : String.mk l ≠ "" := by
  intro he
  exact h (congrArg String.data he)

theorem collapseAux_allowed (l : List Char) :
    ∀ (b : Bool), ∀ c ∈ collapseAux b l, allowedChar c = true := by
  induction l with
  | nil => intro b c hc; simp [collapseAux] at hc
  | cons x xs ih =>
    intro b c hc
    by_cases hx : allowedChar x
    · rw [collapseAux, if_pos hx] at hc
      rcases List.mem_cons.mp hc with rfl | h
      · exact hx
      · exact ih false c h
    · rw [collapseAux, if_neg hx] at hc
      cases b with
      | true => exact ih true c (by simpa using hc)
      | false =>
        simp only [Bool.false_eq_true, if_false] at hc
        rcases List.mem_cons.mp hc with rfl | h
        · decide
        · exact ih true c h

theorem stripChars_subset (l : List Char) : ∀ c ∈ stripChars l, c ∈ l := by
  intro c hc
  unfold stripChars at hc
  rw [List.mem_reverse] at hc
  have h1 := (List.dropWhile_sublist isSepChar).subset hc
  rw [List.mem_reverse] at h1
  exact (List.dropWhile_sublist isSepChar).subset h1

theorem digitChar_props : ∀ m : Nat, m < 10 →
    allowedChar (Char.ofNat (48 + m)) = true ∧ (Char.ofNat (48 + m)).isDigit = true := by
  decide

theorem natDigitsAux_props (fuel : Nat) :
    ∀ n : Nat, ∀ c ∈ natDigitsAux fuel n, allowedChar c = true ∧ c.isDigit = true := by
  induction fuel with
  | zero => intro n c hc; simp [natDigitsAux] at hc
  | succ fuel ih =>
    intro n c hc
    by_cases hn : n < 10
    · rw [natDigitsAux, if_pos hn] at hc
      rcases List.mem_cons.mp hc with rfl | h
      · exact digitChar_props n hn
      · simp at h
    · rw [natDigitsAux, if_neg hn] at hc
      rcases List.mem_append.mp hc with h | h
      · exact ih (n / 10) c h
      · rcases List.mem_cons.mp h with rfl | h2
        · exact digitChar_props (n % 10) (Nat.mod_lt n (by norm_num))
        · simp at h2

theorem natDigitsAux_ne_nil (fuel n : Nat) : natDigitsAux (fuel + 1) n ≠ [] := by
  rw [natDigitsAux]
  by_cases hn : n < 10
  · rw [if_pos hn]; simp
  · rw [if_neg hn]; simp

theorem natToDecString_ne_empty (n : Nat) : natToDecString n ≠ "" :=
  stringMk_ne_empty _ (natDigitsAux_ne_nil n n)

/-- C6: `_safe_filename` always yields a non-empty string over
`[A-Za-z0-9._-]`; when collapsing and stripping leaves nothing (for example
a label of only disallowed characters such as `"???"`), the result is the
current Unix timestamp rendered as a decimal string, hence non-empty and
numeric. -/
theorem safe_filename_invariants (name : String) (now : Nat) :
    safe_filename name now ≠ "" ∧
    (∀ c ∈ (safe_filename name now).data, allowedChar c = true) ∧
    safe_filename "???" now = natToDecString now ∧
    natToDecString now ≠ "" ∧
    (∀ c ∈ (natToDecString now).data, c.isDigit = true) := by
  refine ⟨?_, ?_, rfl, natToDecString_ne_empty now, ?_⟩
  · unfold safe_filename
    cases h : stripChars (collapseAux false name.data) with
    | nil => exact natToDecString_ne_empty now
    | cons c cs => exact stringMk_ne_empty _ (by simp)
  · intro c hc
    unfold safe_filename at hc
    cases h : stripChars (collapseAux false name.data) with
    | nil =>
      rw [h] at hc
      exact (natDigitsAux_props (now + 1) now c hc).1
    | cons x xs =>
      rw [h] at hc
      have hmem : c ∈ stripChars (collapseAux false name.data) := by
        rw [h]; exact hc
      exact collapseAux_allowed name.data false c (stripChars_subset _ c hmem)
  · intro c hc
    exact (natDigitsAux_props (now + 1) now c hc).2

/-- Closed instance of C6 at concrete inputs. -/
theorem safe_filename_invariants_witness :
    safe_filename "a b?c" 7 ≠ "" ∧ safe_filename "???" 7 = natToDecString 7 ∧
    natToDecString 7 = "7" ∧ safe_filename "a b?c" 7 = "a_b_c" :=
  ⟨(safe_filename_invariants "a b?c" 7).1,
   (safe_filename_invariants "???" 7).2.2.1, by decide, by decide⟩

/-- C4 (counterexample to the claim as stated): a tool outcome with exit
code 0 whose stdout parses as `inf` is not a finite positive number, yet
`_probe_duration_seconds` returns `inf` (since `inf <= 0` is false), not the
`0.0` sentinel. -/
theorem probe_inf_counterexample :
    probe_duration_seconds ⟨0, some PyFloat.pinf⟩ = PyFloat.pinf ∧
    isFinitePositive PyFloat.pinf = false ∧
    PyFloat.pinf ≠ PyFloat.finite 0 := by
  refine ⟨by decide, by decide, by decide⟩

/-- C4 (amended): the prober is a total function; it returns the `0.0`
sentinel when the tool exits non-zero, when stdout is unparsable, or when
the parsed value compares `<= 0` (finite non-positive or `-inf`); any parsed
value not comparing `<= 0` — finite positive, `inf`, or `nan` — is returned
unchanged, and in particular a finite positive parsed duration is returned
unchanged. -/
theorem probe_duration_amended (o : ProbeOutcome) :
    (o.exitCode ≠ 0 → probe_duration_seconds o = .finite 0) ∧
    (o.parsed = none → probe_duration_seconds o = .finite 0) ∧
    (∀ d, o.parsed = some d → o.exitCode = 0 →
      probe_duration_seconds o = if pyLeZero d then .finite 0 else d) ∧
    (∀ q : ℚ, 0 < q → o.parsed = some (.finite q) → o.exitCode = 0 →
      probe_duration_seconds o = .finite q) := by
  refine ⟨?_, ?_, ?_, ?_⟩
  · intro h; rw [probe_duration_seconds, if_pos h]
  · intro h
    unfold probe_duration_seconds
    rw [h]
    split <;> rfl
  · intro d hd hexit
    unfold probe_duration_seconds
    rw [hd, if_neg (by simp [hexit])]
  · intro q hq hparse hexit
    unfold probe_duration_seconds
    rw [hparse, if_neg (by simp [hexit])]
    have hle : pyLeZero (.finite q) = false := by
      simp only [pyLeZero, decide_eq_false_iff_not, not_le]
      exact hq
    simp only [hle]
    simp

/-- Closed instance of C4 (amended) at concrete outcomes. -/
theorem probe_duration_amended_witness :
    probe_duration_seconds ⟨3, none⟩ = PyFloat.finite 0 ∧
    probe_duration_seconds ⟨0, some (.finite 5)⟩ = PyFloat.finite 5 :=
  ⟨(probe_duration_amended ⟨3, none⟩).1 (by decide),
   (probe_duration_amended ⟨0, some (.finite 5)⟩).2.2.2 5 (by norm_num) rfl rfl⟩

/-- C3: with a non-negative probed duration (the prober yields `0.0` or a
positive value), Strategy B uses 1 repeat for the `0.0` sentinel and
`max(1, ceil(target / videoDuration))` otherwise; the concat list has
exactly that many entries, all naming the source video; video=10s,
target=35s gives 4 repeats. -/
theorem strategyB_repeat_count (duration vdur : ℚ) (video : FsPath) (hv : 0 ≤ vdur) :
    (vdur = 0 → repeatsOf duration vdur = 1) ∧
    (vdur ≠ 0 → repeatsOf duration vdur = max 1 ⌈duration / vdur⌉) ∧
    (concatListOf video duration vdur).length = (repeatsOf duration vdur).toNat ∧
    (∀ p ∈ concatListOf video duration vdur, p = video) ∧
    repeatsOf 35 10 = 4 ∧
    concatListOf video 35 10 = [video, video, video, video] := by
  have h4 : repeatsOf 35 10 = 4 := by norm_num [repeatsOf, Int.ceil_eq_iff]
  refine ⟨?_, ?_, ?_, ?_, h4, ?_⟩
  · intro h0
    rw [repeatsOf, if_neg]
    rintro ⟨hlt, -⟩
    rw [h0] at hlt
    exact lt_irrefl 0 hlt
  · intro hne
    have hpos : 0 < vdur := lt_of_le_of_ne hv (Ne.symm hne)
    by_cases hd : 0 < duration
    · rw [repeatsOf, if_pos ⟨hpos, hd⟩]
    · rw [repeatsOf, if_neg (by rintro ⟨-, h⟩; exact hd h)]
      have hq : duration / vdur ≤ 0 :=
        div_nonpos_of_nonpos_of_nonneg (not_lt.mp hd) hv
      have hc : ⌈duration / vdur⌉ ≤ 1 := by
        have h0 : ⌈duration / vdur⌉ ≤ (0 : ℤ) := Int.ceil_le.mpr (by exact_mod_cast hq)
        omega
      exact (max_eq_left hc).symm
  · exact List.length_replicate _ _
  · intro p hp
    exact List.eq_of_mem_replicate hp
  · rw [concatListOf, h4]
    rfl

/-- Closed instance of C3 at the claim's own example. -/
theorem strategyB_repeat_count_witness :
    repeatsOf 35 10 = 4 ∧ concatListOf "v.mp4" 35 10 = ["v.mp4", "v.mp4", "v.mp4", "v.mp4"] :=
  ⟨(strategyB_repeat_count 35 10 "v.mp4" (by norm_num)).2.2.2.2.1,
   (strategyB_repeat_count 35 10 "v.mp4" (by norm_num)).2.2.2.2.2⟩

/-- C10: the two auxiliary string nodes are exact identities returning the
one-element tuple with the string unchanged. -/
theorem string_nodes_identity (s : String) :
    XimiStringPass.pass_through s = [s] ∧
    XimiStringInput.produce s = [s] ∧
    (XimiStringPass.pass_through s).length = 1 ∧
    (XimiStringInput.produce s).length = 1 :=
  ⟨rfl, rfl, rfl, rfl⟩

/-- C2: a non-positive duration makes `create_lofi` raise
`ValueError("duration_seconds must be > 0")` with the filesystem unchanged
and an empty effect trace: nothing is created on disk and no dependency
check, download, or external-tool invocation happens. -/
theorem invalid_duration_fail_fast (env : Env) (fs : FS) (vref aref : ParsedRef)
    (duration : ℚ) (hd : duration ≤ 0) :
    createLofi env fs vref aref duration =
      ⟨.error (.valueError invalidDurationMsg), fs, []⟩ := by
  rw [createLofi, if_pos hd]

/-- Concrete network environment used by the closed witnesses. -/
def netW : NetEnv :=
  ⟨true, true, fun _ => ⟨200, [[1], [], [2]]⟩, fun _ => none⟩

/-- Concrete environment: both tools present, Strategy A fails, Strategy B
succeeds. -/
def envW : Env :=
  ⟨"/out", "s1", 777, some "/bin/ffmpeg", some "/bin/ffprobe", netW,
    ⟨1, "loop failed"⟩, ⟨0, ""⟩, ⟨0, some (.finite 10)⟩⟩

/-- Concrete filesystem with one video and one audio file. -/
def fsW : FS :=
  ⟨id, fun p =>
    if p = "/in/v.mp4" then some [1, 2]
    else if p = "/in/a.mp3" then some [3] else none⟩

/-- Local video reference (empty scheme). -/
def vrefW : ParsedRef := ⟨"/in/v.mp4", "", "/in/v.mp4"⟩

/-- Local audio reference (empty scheme). -/
def arefW : ParsedRef := ⟨"/in/a.mp3", "", "/in/a.mp3"⟩

/-- Closed instance of C2 at a concrete invocation with duration 0. -/
theorem invalid_duration_fail_fast_witness :
    createLofi envW fsW vrefW arefW 0 =
      ⟨.error (.valueError invalidDurationMsg), fsW, []⟩ :=
  invalid_duration_fail_fast envW fsW vrefW arefW 0 (by norm_num)

/-- C9 (counterexample to the claim as stated): an invocation with
duration 0 in an environment missing ffmpeg fails with the duration
`ValueError`, not with a dependency-missing `RuntimeError`, because the
duration check precedes the dependency check. -/
def envNoFfmpeg : Env :=
  ⟨"/out", "s1", 777, none, some "/bin/ffprobe", netW,
    ⟨1, "loop failed"⟩, ⟨0, ""⟩, ⟨0, some (.finite 10)⟩⟩

/-- C9 counterexample: see `envNoFfmpeg`. -/
theorem dependency_precheck_counterexample :
    envNoFfmpeg.ffmpegPath = none ∧
    (createLofi envNoFfmpeg fsW vrefW arefW 0).result =
      .error (.valueError invalidDurationMsg) ∧
    isRuntimeErr (createLofi envNoFfmpeg fsW vrefW arefW 0).result = false := by
  refine ⟨rfl, ?_, ?_⟩ <;>
    rw [createLofi, if_pos (le_refl (0 : ℚ))]
  rfl

/-- C9 (amended): for every invocation with a positive duration, a missing
ffmpeg fails with the `RuntimeError` naming ffmpeg, and a present ffmpeg
with missing ffprobe fails with the `RuntimeError` naming ffprobe (the two
messages are distinct); in both cases the filesystem is unchanged and the
trace holds no disk or network effect, only `shutil.which` lookups. -/
theorem dependency_missing_fail_fast (env : Env) (fs : FS) (vref aref : ParsedRef)
    (duration : ℚ) (hd : 0 < duration) :
    (env.ffmpegPath = none →
      createLofi env fs vref aref duration =
        ⟨.error (.runtimeError ffmpegMissingMsg), fs, [.checkDep "ffmpeg"]⟩ ∧
      ([Effect.checkDep "ffmpeg"].filter isWorkEffect) = []) ∧
    (∀ p, env.ffmpegPath = some p → env.ffprobePath = none →
      createLofi env fs vref aref duration =
        ⟨.error (.runtimeError ffprobeMissingMsg), fs,
          [.checkDep "ffmpeg", .checkDep "ffprobe"]⟩ ∧
      ([Effect.checkDep "ffmpeg", Effect.checkDep "ffprobe"].filter isWorkEffect) = []) ∧
    ffmpegMissingMsg ≠ ffprobeMissingMsg := by
  refine ⟨?_, ?_, by decide⟩
  · intro hm
    refine ⟨?_, by decide⟩
    rw [createLofi, if_neg (not_le.mpr hd), if_pos hm]
  · intro p hm hp
    refine ⟨?_, by decide⟩
    rw [createLofi, if_neg (not_le.mpr hd), if_neg (by rw [hm]; simp), if_pos hp]

/-- Concrete environment with ffmpeg present and ffprobe absent. -/
def envNoFfprobe : Env :=
  ⟨"/out", "s1", 777, some "/bin/ffmpeg", none, netW,
    ⟨1, "loop failed"⟩, ⟨0, ""⟩, ⟨0, some (.finite 10)⟩⟩

/-- Closed instance of C9 (amended) at concrete invocations. -/
theorem dependency_missing_fail_fast_witness :
    createLofi envNoFfmpeg fsW vrefW arefW 600 =
      ⟨.error (.runtimeError ffmpegMissingMsg), fsW, [.checkDep "ffmpeg"]⟩ ∧
    createLofi envNoFfprobe fsW vrefW arefW 600 =
      ⟨.error (.runtimeError ffprobeMissingMsg), fsW,
        [.checkDep "ffmpeg", .checkDep "ffprobe"]⟩ :=
  ⟨((dependency_missing_fail_fast envNoFfmpeg fsW vrefW arefW 600 (by norm_num)).1 rfl).1,
   ((dependency_missing_fail_fast envNoFfprobe fsW vrefW arefW 600 (by norm_num)).2.1
      "/bin/ffmpeg" rfl rfl).1⟩

/-- C7: a non-empty reference whose scheme is none of empty, `file`,
`http`, `https` makes `_download_media` raise
`ValueError("Unsupported URL scheme: <scheme>")` with the filesystem
unchanged and no effect performed. -/
theorem unsupported_scheme_rejected (fs : FS) (ref : ParsedRef) (outDir : FsPath)
    (label mediaType : String) (net : NetEnv) (now : Nat)
    (hraw : ref.raw ≠ "") (h1 : ref.scheme ≠ "") (h2 : ref.scheme ≠ "file")
    (h3 : ref.scheme ≠ "http") (h4 : ref.scheme ≠ "https") :
    downloadMedia fs ref outDir label mediaType net now =
      ⟨.error (.valueError ("Unsupported URL scheme: " ++ ref.scheme)), fs, []⟩ := by
  rw [downloadMedia, if_neg hraw, if_neg (not_or.mpr ⟨h1, h2⟩), if_neg (not_or.mpr ⟨h3, h4⟩)]

/-- Closed instance of C7 at an `ftp` reference. -/
theorem unsupported_scheme_rejected_witness :
    downloadMedia fsW ⟨"ftp://host/a.mp4", "ftp", "/a.mp4"⟩ "/out/s1" "video" "video" netW 777 =
      ⟨.error (.valueError "Unsupported URL scheme: ftp"), fsW, []⟩ :=
  unsupported_scheme_rejected fsW ⟨"ftp://host/a.mp4", "ftp", "/a.mp4"⟩ "/out/s1" "video"
    "video" netW 777 (by decide) (by decide) (by decide) (by decide) (by decide)

/-- C5: for a non-empty reference with empty or `file` scheme, a missing
path raises `FileNotFoundError`; an existing path resolves to the sanitized
destination, in place (no filesystem change) when source and destination
canonicalise to the same path, otherwise by a byte-for-byte copy — in both
cases the resulting file's bytes equal the source's bytes. -/
theorem local_resolution_bytes (fs : FS) (ref : ParsedRef) (outDir : FsPath)
    (label mediaType : String) (net : NetEnv) (now : Nat)
    (hraw : ref.raw ≠ "") (hs : ref.scheme = "" ∨ ref.scheme = "file") :
    (fs.files (fs.resolve (localPathOf ref)) = none →
      downloadMedia fs ref outDir label mediaType net now =
        ⟨.error (.fileNotFoundError ("Local path not found: " ++ localPathOf ref)), fs,
          [.fsRead (localPathOf ref)]⟩) ∧
    (∀ bs, fs.files (fs.resolve (localPathOf ref)) = some bs →
      (downloadMedia fs ref outDir label mediaType net now).result =
        .ok (destLocalOf ref outDir label now) ∧
      (downloadMedia fs ref outDir label mediaType net now).fs.files
        (fs.resolve (destLocalOf ref outDir label now)) = some bs ∧
      (fs.resolve (localPathOf ref) = fs.resolve (destLocalOf ref outDir label now) →
        (downloadMedia fs ref outDir label mediaType net now).fs = fs)) := by
  constructor
  · intro h
    rw [downloadMedia, if_neg hraw, if_pos hs, h]
  · intro bs hb
    by_cases hre : fs.resolve (localPathOf ref) = fs.resolve (destLocalOf ref outDir label now)
    · have hres : downloadMedia fs ref outDir label mediaType net now =
          ⟨.ok (destLocalOf ref outDir label now), fs, [.fsRead (localPathOf ref)]⟩ := by
        rw [downloadMedia, if_neg hraw, if_pos hs, hb]
        exact if_pos hre
      rw [hres]
      exact ⟨rfl, by rw [← hre]; exact hb, fun _ => rfl⟩
    · have hres : downloadMedia fs ref outDir label mediaType net now =
          ⟨.ok (destLocalOf ref outDir label now),
            ⟨fs.resolve,
              fun p => if p = fs.resolve (destLocalOf ref outDir label now) then some bs
                else fs.files p⟩,
            [.fsRead (localPathOf ref), .fsWrite (destLocalOf ref outDir label now)]⟩ := by
        rw [downloadMedia, if_neg hraw, if_pos hs, hb]
        exact if_neg hre
      rw [hres]
      exact ⟨rfl, by simp, fun h => absurd h hre⟩

/-- Closed instance of C5: the concrete local video reference is copied and
the destination holds the source's bytes. -/
theorem local_resolution_bytes_witness :
    (downloadMedia fsW vrefW "/out/s1" "video" "video" netW 777).result =
      .ok "/out/s1/video.mp4" ∧
    (downloadMedia fsW vrefW "/out/s1" "video" "video" netW 777).fs.files
      "/out/s1/video.mp4" = some [1, 2] ∧
    fsW.files "/in/v.mp4" = some [1, 2] :=
  ⟨(local_resolution_bytes fsW vrefW "/out/s1" "video" "video" netW 777 (by decide)
      (Or.inl rfl)).2 [1, 2] rfl |>.1,
   (local_resolution_bytes fsW vrefW "/out/s1" "video" "video" netW 777 (by decide)
      (Or.inl rfl)).2 [1, 2] rfl |>.2.1,
   rfl⟩

/-- C8: for a non-empty http/https reference whose URL-path extension is in
the direct-media set, with the fetch capability available: a 4xx/5xx status
raises `requests.HTTPError` before the destination file is opened, leaving
the filesystem unchanged; otherwise the bytes are streamed to
`destinationDir/label.<ext>` with the extension taken from the URL path. -/
theorem direct_download_status_check (fs : FS) (ref : ParsedRef) (outDir : FsPath)
    (label mediaType : String) (net : NetEnv) (now : Nat)
    (hraw : ref.raw ≠ "") (hs : ref.scheme = "http" ∨ ref.scheme = "https")
    (hext : guessExtOfPath ref.path ∈ direct_exts)
    (hreq : net.requestsAvailable = true) :
    (400 ≤ (net.response ref.raw).status ∧ (net.response ref.raw).status < 600 →
      downloadMedia fs ref outDir label mediaType net now =
        ⟨.error (.httpError (net.response ref.raw).status), fs, [.netFetch ref.raw]⟩) ∧
    (¬(400 ≤ (net.response ref.raw).status ∧ (net.response ref.raw).status < 600) →
      (downloadMedia fs ref outDir label mediaType net now).result =
        .ok (destDirectOf ref outDir label now) ∧
      (downloadMedia fs ref outDir label mediaType net now).fs.files
        (fs.resolve (destDirectOf ref outDir label now)) =
          some (writtenBytes (net.response ref.raw))) := by
  have hnl : ¬(ref.scheme = "" ∨ ref.scheme = "file") := by
    rcases hs with h | h <;> rw [h] <;> decide
  constructor
  · intro hbad
    rw [downloadMedia, if_neg hraw, if_neg hnl, if_pos hs, if_pos hext, hreq,
      if_pos rfl, if_pos hbad]
  · intro hok
    have hres : downloadMedia fs ref outDir label mediaType net now =
        ⟨.ok (destDirectOf ref outDir label now),
          ⟨fs.resolve,
            fun p => if p = fs.resolve (destDirectOf ref outDir label now) then
                some (writtenBytes (net.response ref.raw))
              else fs.files p⟩,
          [.netFetch ref.raw, .fsWrite (destDirectOf ref outDir label now)]⟩ := by
      rw [downloadMedia, if_neg hraw, if_neg hnl, if_pos hs, if_pos hext, hreq,
        if_pos rfl, if_neg hok]
    rw [hres]
    exact ⟨rfl, by simp⟩

/-- Reference to a direct media URL used by the C8 witness. -/
def urlRefW : ParsedRef := ⟨"https://h/x/clip.MP4", "https", "/x/clip.MP4"⟩

/-- Network environment whose response is 404 for every URL. -/
def net404 : NetEnv := ⟨true, true, fun _ => ⟨404, [[9]]⟩, fun _ => none⟩

/-- Closed instance of C8: a 404 fails with `HTTPError` and leaves the
filesystem untouched; a 200 streams the chunked bytes to
`/out/s1/video.mp4` (extension lower-cased from the URL path). -/
theorem direct_download_status_check_witness :
    downloadMedia fsW urlRefW "/out/s1" "video" "video" net404 777 =
      ⟨.error (.httpError 404), fsW, [.netFetch "https://h/x/clip.MP4"]⟩ ∧
    (downloadMedia fsW urlRefW "/out/s1" "video" "video" netW 777).result =
      .ok "/out/s1/video.mp4" ∧
    (downloadMedia fsW urlRefW "/out/s1" "video" "video" netW 777).fs.files
      "/out/s1/video.mp4" = some [1, 2] :=
  ⟨(direct_download_status_check fsW urlRefW "/out/s1" "video" "video" net404 777
      (by decide) (Or.inr rfl) (by decide) rfl).1 (by decide),
   ((direct_download_status_check fsW urlRefW "/out/s1" "video" "video" netW 777
      (by decide) (Or.inr rfl) (by decide) rfl).2 (by decide)).1,
   ((direct_download_status_check fsW urlRefW "/out/s1" "video" "video" netW 777
      (by decide) (Or.inr rfl) (by decide) rfl).2 (by decide)).2⟩

/-- C1: once a render is reached (valid duration, tools present, both
references resolved), a non-zero exit of Strategy A falls through to
Strategy B: if Strategy B's tool exits zero the whole `create_lofi` returns
the output path with no error; if it exits non-zero the operation fails with
`RuntimeError` carrying the tool's stripped stderr (or the fixed fallback
message when stderr is blank). -/
theorem strategy_fallback_on_failure (env : Env) (fs : FS) (vref aref : ParsedRef)
    (duration : ℚ) (videoLocal audioLocal : FsPath)
    (hd : 0 < duration)
    (hm : env.ffmpegPath ≠ none)
    (hp : env.ffprobePath ≠ none)
    (hv : (videoDl env fs vref).result = .ok videoLocal)
    (ha : (audioDl env fs vref aref).result = .ok audioLocal)
    (hA : env.mergeLoopOutcome.exitCode ≠ 0) :
    (env.concatOutcome.exitCode = 0 →
      (createLofi env fs vref aref duration).result = .ok (outPathOf env)) ∧
    (env.concatOutcome.exitCode ≠ 0 →
      (createLofi env fs vref aref duration).result =
        .error (.runtimeError (nonEmptyOr (pyStrip env.concatOutcome.stderr)
          concatFallbackFailedMsg)) ∧
      (pyStrip env.concatOutcome.stderr ≠ "" →
        (createLofi env fs vref aref duration).result =
          .error (.runtimeError (pyStrip env.concatOutcome.stderr)))) := by
  have hres : (createLofi env fs vref aref duration).result =
      (renderPhase env (audioDl env fs vref aref).fs videoLocal audioLocal duration
        (outPathOf env)).result := by
    unfold createLofi
    rw [if_neg (not_le.mpr hd), if_neg hm, if_neg hp, hv, ha]
  constructor
  · intro hB
    rw [hres]
    simp only [renderPhase]
    rw [if_neg hA, if_pos hB]
  · intro hB
    have herr : (renderPhase env (audioDl env fs vref aref).fs videoLocal audioLocal duration
        (outPathOf env)).result =
        .error (.runtimeError (nonEmptyOr (pyStrip env.concatOutcome.stderr)
          concatFallbackFailedMsg)) := by
      simp only [renderPhase]
      rw [if_neg hA, if_neg hB]
    refine ⟨hres.trans herr, ?_⟩
    intro hne
    rw [hres, herr]
    unfold nonEmptyOr
    rw [if_neg hne]

/-- Closed instance of C1: with `envW` (Strategy A exits 1, Strategy B exits
0) the operation succeeds and returns the session output path. -/
theorem strategy_fallback_on_failure_witness :
    (createLofi envW fsW vrefW arefW 600).result = .ok (outPathOf envW) ∧
    outPathOf envW = "/out/s1/lofi_777.mp4" :=
  ⟨(strategy_fallback_on_failure envW fsW vrefW arefW 600
      "/out/s1/video.mp4" "/out/s1/audio.mp3" (by norm_num) (by decide) (by decide)
      rfl rfl (by decide)).1 rfl,
   by decide⟩
